import Mathlib

/-!
Verification of the gym-agent workout planner (src/gym_agent/agent.py).

The Python module defines two pure-ish helper functions — `equipments_json_loader`
and `equipment_selector` — plus declarative agent-pipeline wiring
(`workout_decoder_agent`, `workout_planner_agent`, `equipments_selector_agent`,
`parallel_processor`, `root_agent`).  We embed them shallowly:

* JSON values are the inductive `Json`; Python strings are Lean `String`
  (a list of Unicode code points, matching CPython's `str`).
* File-system interaction is abstracted into a `FileState`: the state of the
  file at the path the loader opens, classified by what `open` + `json.load`
  would do with it (missing, unreadable, undecodable, or decoded to a value).
* Python exceptions become `Except PyError`: the embedding of a Python
  function returns `.error e` exactly when the Python function raises `e`
  to its caller.
-/

/-- A JSON value, as produced by Python's `json.load`.  Python dicts are
modelled as association lists in insertion order (CPython dicts are ordered,
with unique keys). -/
inductive Json where
  | null
  | bool (b : Bool)
  | num (n : Int)
  | str (s : String)
  | arr (elems : List Json)
  | obj (kvs : List (String × Json))

mutual

/-- Decidable equality for `Json` (structural, so that `decide` can evaluate it). -/
def Json.decEq : (a b : Json) → Decidable (a = b)
  | .null, .null => isTrue rfl
  | .bool x, .bool y =>
      match inferInstanceAs (Decidable (x = y)) with
      | isTrue h => isTrue (h ▸ rfl)
      | isFalse h => isFalse (fun he => h (Json.bool.inj he))
  | .num x, .num y =>
      match inferInstanceAs (Decidable (x = y)) with
      | isTrue h => isTrue (h ▸ rfl)
      | isFalse h => isFalse (fun he => h (Json.num.inj he))
  | .str x, .str y =>
      match inferInstanceAs (Decidable (x = y)) with
      | isTrue h => isTrue (h ▸ rfl)
      | isFalse h => isFalse (fun he => h (Json.str.inj he))
  | .arr xs, .arr ys =>
      match Json.decEqList xs ys with
      | isTrue h => isTrue (h ▸ rfl)
      | isFalse h => isFalse (fun he => h (Json.arr.inj he))
  | .obj xs, .obj ys =>
      match Json.decEqKVs xs ys with
      | isTrue h => isTrue (h ▸ rfl)
      | isFalse h => isFalse (fun he => h (Json.obj.inj he))
  | .null, .bool _ => isFalse (fun h => Json.noConfusion h)
  | .null, .num _ => isFalse (fun h => Json.noConfusion h)
  | .null, .str _ => isFalse (fun h => Json.noConfusion h)
  | .null, .arr _ => isFalse (fun h => Json.noConfusion h)
  | .null, .obj _ => isFalse (fun h => Json.noConfusion h)
  | .bool _, .null => isFalse (fun h => Json.noConfusion h)
  | .bool _, .num _ => isFalse (fun h => Json.noConfusion h)
  | .bool _, .str _ => isFalse (fun h => Json.noConfusion h)
  | .bool _, .arr _ => isFalse (fun h => Json.noConfusion h)
  | .bool _, .obj _ => isFalse (fun h => Json.noConfusion h)
  | .num _, .null => isFalse (fun h => Json.noConfusion h)
  | .num _, .bool _ => isFalse (fun h => Json.noConfusion h)
  | .num _, .str _ => isFalse (fun h => Json.noConfusion h)
  | .num _, .arr _ => isFalse (fun h => Json.noConfusion h)
  | .num _, .obj _ => isFalse (fun h => Json.noConfusion h)
  | .str _, .null => isFalse (fun h => Json.noConfusion h)
  | .str _, .bool _ => isFalse (fun h => Json.noConfusion h)
  | .str _, .num _ => isFalse (fun h => Json.noConfusion h)
  | .str _, .arr _ => isFalse (fun h => Json.noConfusion h)
  | .str _, .obj _ => isFalse (fun h => Json.noConfusion h)
  | .arr _, .null => isFalse (fun h => Json.noConfusion h)
  | .arr _, .bool _ => isFalse (fun h => Json.noConfusion h)
  | .arr _, .num _ => isFalse (fun h => Json.noConfusion h)
  | .arr _, .str _ => isFalse (fun h => Json.noConfusion h)
  | .arr _, .obj _ => isFalse (fun h => Json.noConfusion h)
  | .obj _, .null => isFalse (fun h => Json.noConfusion h)
  | .obj _, .bool _ => isFalse (fun h => Json.noConfusion h)
  | .obj _, .num _ => isFalse (fun h => Json.noConfusion h)
  | .obj _, .str _ => isFalse (fun h => Json.noConfusion h)
  | .obj _, .arr _ => isFalse (fun h => Json.noConfusion h)

/-- Decidable equality for lists of `Json`. -/
def Json.decEqList : (a b : List Json) → Decidable (a = b)
  | [], [] => isTrue rfl
  | [], _ :: _ => isFalse (fun h => List.noConfusion h)
  | _ :: _, [] => isFalse (fun h => List.noConfusion h)
  | x :: xs, y :: ys =>
      match Json.decEq x y with
      | isFalse h => isFalse (fun he => h (List.cons.inj he).1)
      | isTrue h1 =>
        match Json.decEqList xs ys with
        | isTrue h2 => isTrue (h1 ▸ h2 ▸ rfl)
        | isFalse h2 => isFalse (fun he => h2 (List.cons.inj he).2)

/-- Decidable equality for JSON object entry lists. -/
def Json.decEqKVs : (a b : List (String × Json)) → Decidable (a = b)
  | [], [] => isTrue rfl
  | [], _ :: _ => isFalse (fun h => List.noConfusion h)
  | _ :: _, [] => isFalse (fun h => List.noConfusion h)
  | (k1, v1) :: xs, (k2, v2) :: ys =>
      match inferInstanceAs (Decidable (k1 = k2)) with
      | isFalse h => isFalse (fun he => h (congrArg Prod.fst (List.cons.inj he).1))
      | isTrue hk =>
        match Json.decEq v1 v2 with
        | isFalse h => isFalse (fun he => h (congrArg Prod.snd (List.cons.inj he).1))
        | isTrue hv =>
          match Json.decEqKVs xs ys with
          | isTrue ht => isTrue (hk ▸ hv ▸ ht ▸ rfl)
          | isFalse h => isFalse (fun he => h (List.cons.inj he).2)

end

instance : DecidableEq Json := Json.decEq

/-- A Python exception class, as far as the embedded code can raise one. -/
inductive PyError where
  | typeError
  | attributeError
  | keyError
  | osError
deriving DecidableEq

instance {ε α : Type} [DecidableEq ε] [DecidableEq α] : DecidableEq (Except ε α)
  | .error a, .error b =>
      match inferInstanceAs (Decidable (a = b)) with
      | isTrue h => isTrue (h ▸ rfl)
      | isFalse h => isFalse (fun he => h (Except.error.inj he))
  | .ok a, .ok b =>
      match inferInstanceAs (Decidable (a = b)) with
      | isTrue h => isTrue (h ▸ rfl)
      | isFalse h => isFalse (fun he => h (Except.ok.inj he))
  | .error _, .ok _ => isFalse (fun h => Except.noConfusion h)
  | .ok _, .error _ => isFalse (fun h => Except.noConfusion h)

/-- The state of the file at the path the JSON loader opens, classified by
what Python's `open` followed by `json.load` does with it:
`missing` (open raises `FileNotFoundError`), `unreadable` (open raises an
`OSError` that is not `FileNotFoundError`, e.g. `PermissionError`),
`invalidJson` (`json.load` raises `json.JSONDecodeError`), or
`content j` (`json.load` succeeds and returns the value `j`). -/
inductive FileState where
  | missing
  | unreadable
  | invalidJson
  | content (j : Json)

/-! ### Python string primitives

CPython's `str.lower()` lower-cases each code point (for the ASCII letters
that appear in this program, `A`–`Z` map to `a`–`z`, which is exactly
`Char.toLower`), and `str.strip()` removes leading and trailing whitespace. -/

/-- Embedding of Python `s.lower()`: lower-case every character. -/
def pyLower (s : String) : String := String.mk (s.data.map Char.toLower)

/-- The character-list form of Python `str.strip()`: drop leading whitespace,
then drop trailing whitespace (by reversing, dropping leading, reversing back). -/
def stripChars (l : List Char) : List Char :=
  ((l.dropWhile Char.isWhitespace).reverse.dropWhile Char.isWhitespace).reverse

/-- Embedding of Python `s.strip()`: drop leading and trailing whitespace. -/
def pyStrip (s : String) : String := String.mk (stripChars s.data)

/-- The normalisation applied by `equipment_selector` line 40:
`muscle = muscle.lower().strip()`. -/
def pyNormalize (s : String) : String := pyStrip (pyLower s)

/-- Contiguous-sublist test: does `needle` occur inside `haystack`? -/
def charsInfix (needle : List Char) : List Char → Bool
  | [] => needle.isEmpty
  | h :: t => needle.isPrefixOf (h :: t) || charsInfix needle t

/-- Embedding of Python `needle in haystack` for two strings: substring test. -/
def pyInStr (needle haystack : String) : Bool := charsInfix needle.data haystack.data

/-- Embedding of Python `key in db` where `db` came from `json.load`:
for a dict it is key membership, for a list it is element equality with the
(string) key, for a string it is the substring test; any other value raises
`TypeError: argument of type ... is not iterable`. -/
def pyContains (db : Json) (key : String) : Except PyError Bool :=
  match db with
  | .obj kvs => .ok (kvs.any (fun kv => kv.1 == key))
  | .arr elems => .ok (elems.any (fun e => match e with | .str t => key == t | _ => false))
  | .str s => .ok (pyInStr key s)
  | _ => .error .typeError

/-- Embedding of Python `db[key]` with a string key: only a dict supports it
(raising `KeyError` on a missing key); a list or string indexed by a string,
or any other value, raises `TypeError`. -/
def pyIndex (db : Json) (key : String) : Except PyError Json :=
  match db with
  | .obj kvs =>
      match kvs.lookup key with
      | some v => .ok v
      | none => .error .keyError
  | _ => .error .typeError

/-- Embedding of Python `record.get(key, default)`: only a dict has `.get`
(anything else raises `AttributeError`). -/
def pyGet (record : Json) (key : String) (default : Json) : Except PyError Json :=
  match record with
  | .obj kvs => .ok ((kvs.lookup key).getD default)
  | _ => .error .attributeError

/-! ### The equipment lookup (agent.py lines 13–56) -/

/-- `equipments_json_loader(path)` (agent.py lines 13–23): open the file and
`json.load` it; `except FileNotFoundError: return {}` and
`except json.JSONDecodeError: return {}` (each after printing a warning);
any other exception — e.g. a `PermissionError` from `open` — is not caught
and propagates. -/
def equipments_json_loader (fs : FileState) : Except PyError Json :=
  match fs with
  | .missing => .ok (.obj [])
  | .unreadable => .error .osError
  | .invalidJson => .ok (.obj [])
  | .content j => .ok j

/-- `equipment_selector(muscle)` (agent.py lines 26–56): load the equipment
table, normalise the muscle name with `muscle.lower().strip()`, and either
return the fixed not-found record (lines 43–48) when the name is not in the
table, or copy `required_equipment`/`alternatives` out of the record with
`.get(..., [])` (lines 50–56).  The result dict has exactly the four keys
`status`, `muscle`, `required`, `alternatives`. -/
structure LookupResult where
  status : String
  muscle : String
  required : Json
  alternatives : Json
deriving DecidableEq

def equipment_selector (fs : FileState) (muscle : String) : Except PyError LookupResult :=
  match equipments_json_loader fs with
  | .error e => .error e
  | .ok equipments_db =>
    let m := pyNormalize muscle
    match pyContains equipments_db m with
    | .error e => .error e
    | .ok c =>
      if c = false then
        .ok { status := "not_found", muscle := m,
              required := .arr [.str "Dumbbells", .str "Resistance bands"],
              alternatives := .arr [.str "Bodyweight exercises", .str "Household items"] }
      else
        match pyIndex equipments_db m with
        | .error e => .error e
        | .ok equipments =>
          match pyGet equipments "required_equipment" (.arr []) with
          | .error e => .error e
          | .ok req =>
            match pyGet equipments "alternatives" (.arr []) with
            | .error e => .error e
            | .ok alt =>
              .ok { status := "success", muscle := m, required := req, alternatives := alt }

/-- The fixed default returned on a lookup miss (agent.py lines 43–48). -/
def not_found_default (m : String) : LookupResult :=
  { status := "not_found", muscle := m,
    required := .arr [.str "Dumbbells", .str "Resistance bands"],
    alternatives := .arr [.str "Bodyweight exercises", .str "Household items"] }

/-! ### Pipeline wiring (agent.py lines 63–437)

The three `Agent(...)` values are prompt configurations for the external
framework; for the pipeline-shape claims only their names and the
sequential/parallel composition structure matter. -/

/-- A node of the agent-orchestration DAG: a leaf prompt agent (`Agent`),
a `SequentialAgent` over sub-agents, or a `ParallelAgent` over sub-agents. -/
inductive AgentNode where
  | llmAgent (agentName : String)
  | sequential (agentName : String) (sub : List AgentNode)
  | parallel (agentName : String) (sub : List AgentNode)

/-- `Agent(name="workout_decoder", ...)` (agent.py line 63). -/
def workout_decoder_agent : AgentNode := .llmAgent "workout_decoder"

/-- `Agent(name="workout_planner", ...)` (agent.py line 177). -/
def workout_planner_agent : AgentNode := .llmAgent "workout_planner"

/-- `Agent(name="equipments_agent", ...)` (agent.py line 312). -/
def equipments_selector_agent : AgentNode := .llmAgent "equipments_agent"

/-- `ParallelAgent(name="ParallelPipeline", sub_agents=[workout_planner_agent,
equipments_selector_agent])` (agent.py lines 422–428). -/
def parallel_processor : AgentNode :=
  .parallel "ParallelPipeline" [workout_planner_agent, equipments_selector_agent]

/-- `SequentialAgent(name="ExercisePipeline", sub_agents=[workout_decoder_agent,
parallel_processor])` (agent.py lines 431–437). -/
def root_agent : AgentNode :=
  .sequential "ExercisePipeline" [workout_decoder_agent, parallel_processor]

/-- The direct sub-agent list of a composite agent (empty for a leaf agent). -/
def AgentNode.subAgents : AgentNode → List AgentNode
  | .llmAgent _ => []
  | .sequential _ sub => sub
  | .parallel _ sub => sub

mutual

/-- All agent names occurring anywhere in the wiring tree, root first. -/
def AgentNode.allNames : AgentNode → List String
  | .llmAgent n => [n]
  | .sequential n sub => n :: AgentNode.allNamesList sub
  | .parallel n sub => n :: AgentNode.allNamesList sub

/-- All agent names occurring in a list of wiring trees. -/
def AgentNode.allNamesList : List AgentNode → List String
  | [] => []
  | a :: rest => AgentNode.allNames a ++ AgentNode.allNamesList rest

end

/-! ### History persistence and the repetition filter

No persistence helper or history-aware filter appears in `src/`; they are
modelled from the specification (sections 3, 4.2, 4.3). -/

/-- Modelled from the spec: a `WorkoutHistoryEntry`
(`{muscle, goal, training_style, experience_level, workout: string}`,
spec section 3); only the `workout` text is read back by the filter. -/
structure WorkoutHistoryEntry where
  muscle : String
  goal : String
  training_style : String
  experience_level : String
  workout : String

/-- Modelled from the spec: the history `load` helper (spec section 4.3) —
"read JSON array from a path; return empty array on any error (missing file,
invalid JSON, non-array content)"; it fails closed and never raises, which the
totality of this function witnesses. -/
def load_history (fs : FileState) : List Json :=
  match fs with
  | .missing => []
  | .unreadable => []
  | .invalidJson => []
  | .content (.arr entries) => entries
  | .content _ => []

/-- Modelled from the spec: the history `append` helper (spec section 4.3) —
"load, push one entry, rewrite the whole file". -/
def append_history (fs : FileState) (entry : Json) : FileState :=
  .content (.arr (load_history fs ++ [entry]))

/-- An empty history file: a file whose content is the JSON array `[]`. -/
def empty_history_file : FileState := .content (.arr [])

/-- Modelled from the spec: "take the last 3 entries (or fewer if history is
shorter)" (spec section 4.2). -/
def lastThreeEntries (history : List WorkoutHistoryEntry) : List WorkoutHistoryEntry :=
  (history.reverse.take 3).reverse

/-- Modelled from the spec: split a workout text into lines (spec section 4.2). -/
def splitLines (s : String) : List String := s.splitOn "\n"

/-- Modelled from the spec: a line is collected when it "contains the literal
substring \"Exercise\" or a hyphen character" (spec section 4.2). -/
def matchesExerciseLine (line : String) : Bool :=
  pyInStr "Exercise" line || line.data.contains '-'

/-- Modelled from the spec: the history-aware exercise filter (spec
section 4.2) — over the last 3 entries, split each entry's `workout` text
into lines, keep the lines matching `matchesExerciseLine`, lower-cased,
in one flat sequence. -/
def history_filter (history : List WorkoutHistoryEntry) : List String :=
  (lastThreeEntries history).foldr
    (fun e acc => ((splitLines e.workout).filter matchesExerciseLine).map pyLower ++ acc) []

/-! ### Character-level lemmas about lower-casing and whitespace -/

theorem char_toNat_ofNat_of_le (n : Nat) (h1 : 97 ≤ n) (h2 : n ≤ 122) :
    (Char.ofNat n).toNat = n := by
  unfold Char.ofNat
  rw [dif_pos]
  · rfl
  · left; omega

theorem char_toLower_idem (c : Char) : c.toLower.toLower = c.toLower := by
  simp only [Char.toLower]
  split
  · rw [char_toNat_ofNat_of_le _ (by omega) (by omega)]
    rw [if_neg (by omega)]
  · rfl

theorem char_ne_of_toNat_ne {a b : Char} (h : a.toNat ≠ b.toNat) : a ≠ b :=
  fun he => h (congrArg Char.toNat he)

theorem isWhitespace_eq_false_of_toNat {c : Char} (h32 : c.toNat ≠ 32) (h9 : c.toNat ≠ 9)
    (h13 : c.toNat ≠ 13) (h10 : c.toNat ≠ 10) : c.isWhitespace = false := by
  simp only [Char.isWhitespace, Bool.or_eq_false_iff, decide_eq_false_iff_not]
  exact ⟨⟨⟨char_ne_of_toNat_ne h32, char_ne_of_toNat_ne h9⟩,
          char_ne_of_toNat_ne h13⟩, char_ne_of_toNat_ne h10⟩

theorem isWhitespace_toLower (c : Char) : c.toLower.isWhitespace = c.isWhitespace := by
  simp only [Char.toLower]
  split
  · rename_i h
    have ht : (Char.ofNat (c.toNat + 32)).toNat = c.toNat + 32 :=
      char_toNat_ofNat_of_le _ (by omega) (by omega)
    rw [isWhitespace_eq_false_of_toNat (by omega) (by omega) (by omega) (by omega),
        isWhitespace_eq_false_of_toNat (by omega) (by omega) (by omega) (by omega)]
  · rfl

/-! ### List-level lemmas about stripping -/

theorem dropWhile_idem (p : α → Bool) (l : List α) :
    (l.dropWhile p).dropWhile p = l.dropWhile p := by
  induction l with
  | nil => rfl
  | cons a t ih =>
    by_cases hp : p a
    · rw [List.dropWhile_cons_of_pos hp]; exact ih
    · rw [List.dropWhile_cons_of_neg hp, List.dropWhile_cons_of_neg hp]

theorem dropWhile_eq_self_of_append (p : α → Bool) (y t x : List α)
    (hx : x.dropWhile p = x) (hyt : y ++ t = x) : y.dropWhile p = y := by
  cases y with
  | nil => rfl
  | cons a ys =>
    subst hyt
    by_cases hp : p a
    · exfalso
      rw [List.cons_append, List.dropWhile_cons_of_pos hp] at hx
      have hle := ( List.dropWhile_suffix p (l := ys ++ t)).length_le
      rw [hx] at hle
      simp at hle
    · rw [List.dropWhile_cons_of_neg hp]

theorem stripChars_idem (l : List Char) : stripChars (stripChars l) = stripChars l := by
  set ws := Char.isWhitespace
  set u := l.dropWhile ws with hu
  have hdu : u.dropWhile ws = u := by rw [hu]; exact dropWhile_idem ws l
  -- `stripChars l` is `u` with a whitespace suffix removed, hence of the form
  -- `y` with `y ++ t = u`; so it still has no leading whitespace.
  obtain ⟨s, hs⟩ : ∃ s, s ++ (u.reverse.dropWhile ws) = u.reverse :=
    List.dropWhile_suffix ws
  have hyt : (u.reverse.dropWhile ws).reverse ++ s.reverse = u := by
    have := congrArg List.reverse hs
    rwa [List.reverse_append, List.reverse_reverse] at this
  have hstrip : stripChars l = (u.reverse.dropWhile ws).reverse := rfl
  have hnol : (stripChars l).dropWhile ws = stripChars l := by
    rw [hstrip]
    exact dropWhile_eq_self_of_append ws _ s.reverse u hdu hyt
  show ((((stripChars l).dropWhile ws).reverse).dropWhile ws).reverse = stripChars l
  rw [hnol, hstrip, List.reverse_reverse, dropWhile_idem]

theorem stripChars_map_toLower (l : List Char) :
    stripChars (l.map Char.toLower) = (stripChars l).map Char.toLower := by
  have hws : (Char.isWhitespace ∘ Char.toLower) = Char.isWhitespace := by
    funext c; exact isWhitespace_toLower c
  show ((((l.map Char.toLower).dropWhile Char.isWhitespace).reverse).dropWhile
      Char.isWhitespace).reverse = _
  rw [List.dropWhile_map, hws, ← List.map_reverse, List.dropWhile_map, hws, ← List.map_reverse]
  rfl

theorem map_toLower_idem (l : List Char) :
    (l.map Char.toLower).map Char.toLower = l.map Char.toLower := by
  rw [List.map_map]
  exact List.map_congr_left (fun c _ => char_toLower_idem c)

/-- Normalising an already claim-normalised string changes nothing:
`lower` then `strip` of `lower(strip(m))` is `lower` then `strip` of `m`. -/
theorem pyNormalize_lower_strip (m : String) :
    pyNormalize (pyLower (pyStrip m)) = pyNormalize m := by
  show String.mk (stripChars (((stripChars m.data).map Char.toLower).map Char.toLower)) =
       String.mk (stripChars (m.data.map Char.toLower))
  rw [map_toLower_idem, stripChars_map_toLower, stripChars_idem, ← stripChars_map_toLower]

/-! ### Lemmas about the equipment lookup -/

/-- Unfolding of the lookup on a table that misses the normalised key. -/
theorem selector_not_found_of_no_key (kvs : List (String × Json)) (m : String)
    (h : kvs.any (fun kv => kv.1 == pyNormalize m) = false) :
    equipment_selector (.content (.obj kvs)) m = .ok (not_found_default (pyNormalize m)) := by
  simp only [equipment_selector, equipments_json_loader, pyContains]
  rw [h]
  rfl

theorem any_key_of_lookup {kvs : List (String × Json)} {k : String} {v : Json}
    (h : kvs.lookup k = some v) : kvs.any (fun kv => kv.1 == k) = true := by
  induction kvs with
  | nil => simp [List.lookup] at h
  | cons hd tl ih =>
    obtain ⟨k', v'⟩ := hd
    simp only [List.lookup] at h
    simp only [List.any_cons]
    by_cases hk : k = k'
    · subst hk; simp
    · have hb : (k == k') = false := beq_false_of_ne hk
      rw [hb] at h
      simp only [ih h, Bool.or_true]

/-- Unfolding of the lookup on a table that maps the normalised key to an
object record. -/
theorem selector_success_of_lookup (kvs record : List (String × Json)) (m : String)
    (h : kvs.lookup (pyNormalize m) = some (Json.obj record)) :
    equipment_selector (.content (.obj kvs)) m =
      .ok { status := "success", muscle := pyNormalize m,
            required := (record.lookup "required_equipment").getD (Json.arr []),
            alternatives := (record.lookup "alternatives").getD (Json.arr []) } := by
  have hany := any_key_of_lookup h
  simp only [equipment_selector, equipments_json_loader, pyContains, pyIndex]
  rw [hany, h]
  simp [pyGet]

/-! ### Lemmas about the history model -/

theorem load_history_foldl_append (l : List Json) :
    ∀ fs : FileState, load_history (l.foldl append_history fs) = load_history fs ++ l := by
  induction l with
  | nil => intro fs; simp
  | cons x t ih =>
    intro fs
    rw [List.foldl_cons, ih]
    simp [append_history, load_history]

theorem lastThreeEntries_eq_drop (history : List WorkoutHistoryEntry) :
    lastThreeEntries history = history.drop (history.length - 3) := by
  unfold lastThreeEntries
  rw [ List.take_reverse, List.reverse_reverse]

/-! ## Claim theorems -/

/-- C1 (counterexample): the claim's fixed not-found record is wrong on the
code.  With an empty table, `equipment_selector("legs")` does not return
`required = ["Dumbbells","Resistance Bands"]` with
`alternatives = ["Bodyweight variations","Household objects (water jugs)"]`;
the code's literals are `["Dumbbells","Resistance bands"]` and
`["Bodyweight exercises","Household items"]` (agent.py lines 46–47). -/
theorem equipment_selector_claimed_default_refuted :
    equipment_selector (FileState.content (Json.obj [])) "legs" ≠
      Except.ok { status := "not_found", muscle := "legs",
                  required := Json.arr [Json.str "Dumbbells", Json.str "Resistance Bands"],
                  alternatives := Json.arr [Json.str "Bodyweight variations",
                                            Json.str "Household objects (water jugs)"] } := by
  decide

/-- C1 (amended): for every muscle string whose normalised (lower-cased,
stripped) form is not a key of the equipment table — including an empty table
and a missing or malformed file — `equipment_selector` returns
`{status: "not_found", muscle: <normalised input>,
required: ["Dumbbells","Resistance bands"],
alternatives: ["Bodyweight exercises","Household items"]}`. -/
theorem equipment_selector_not_found_amended (fs : FileState) (m : String)
    (h : (∃ kvs, fs = FileState.content (Json.obj kvs) ∧
            kvs.any (fun kv => kv.1 == pyNormalize m) = false)
         ∨ fs = FileState.missing ∨ fs = FileState.invalidJson) :
    equipment_selector fs m =
      .ok { status := "not_found", muscle := pyNormalize m,
            required := Json.arr [Json.str "Dumbbells", Json.str "Resistance bands"],
            alternatives := Json.arr [Json.str "Bodyweight exercises",
                                      Json.str "Household items"] } := by
  rcases h with ⟨kvs, hfs, hmiss⟩ | hfs | hfs
  · subst hfs; exact selector_not_found_of_no_key kvs m hmiss
  · subst hfs; rfl
  · subst hfs; rfl

/-- C1 (witness): the amended theorem applied to the concrete scenario
table = `{}`, muscle = `"legs"`. -/
theorem equipment_selector_not_found_amended_witness :
    equipment_selector (FileState.content (Json.obj [])) "legs" =
      .ok { status := "not_found", muscle := "legs",
            required := Json.arr [Json.str "Dumbbells", Json.str "Resistance bands"],
            alternatives := Json.arr [Json.str "Bodyweight exercises",
                                      Json.str "Household items"] } :=
  equipment_selector_not_found_amended (FileState.content (Json.obj [])) "legs"
    (Or.inl ⟨[], rfl, rfl⟩)

/-- C2 (confirmed): for every muscle string whose normalised form is a key of
the equipment table mapping to the record object, `equipment_selector` returns
`{status: "success", muscle: <normalised input>, required: <the record's
required_equipment>, alternatives: <the record's alternatives>}`, substituting
the empty sequence for either field when it is absent from the record. -/
theorem equipment_selector_success_spec (kvs record : List (String × Json)) (m : String)
    (h : kvs.lookup (pyNormalize m) = some (Json.obj record)) :
    equipment_selector (FileState.content (Json.obj kvs)) m =
      .ok { status := "success", muscle := pyNormalize m,
            required := (record.lookup "required_equipment").getD (Json.arr []),
            alternatives := (record.lookup "alternatives").getD (Json.arr []) } :=
  selector_success_of_lookup kvs record m h

/-- C2 (witness): the concrete scenario — table
`{"chest": {"required_equipment": ["Barbell","Bench"],
"alternatives": ["Resistance Bands"]}}`, lookup of `"CHEST "`. -/
theorem equipment_selector_success_spec_witness :
    equipment_selector
      (FileState.content (Json.obj
        [("chest", Json.obj
          [("required_equipment", Json.arr [Json.str "Barbell", Json.str "Bench"]),
           ("alternatives", Json.arr [Json.str "Resistance Bands"])])]))
      "CHEST " =
      .ok { status := "success", muscle := "chest",
            required := Json.arr [Json.str "Barbell", Json.str "Bench"],
            alternatives := Json.arr [Json.str "Resistance Bands"] } :=
  equipment_selector_success_spec
    [("chest", Json.obj
      [("required_equipment", Json.arr [Json.str "Barbell", Json.str "Bench"]),
       ("alternatives", Json.arr [Json.str "Resistance Bands"])])]
    [("required_equipment", Json.arr [Json.str "Barbell", Json.str "Bench"]),
     ("alternatives", Json.arr [Json.str "Resistance Bands"])]
    "CHEST " (by decide)

/-- C3 (confirmed): for every muscle string and every fixed table state,
`equipment_selector(m)` equals `equipment_selector(lower(trim(m)))` — the
lookup depends on the input only through its normalised form. -/
theorem equipment_selector_normalize_invariant (fs : FileState) (m : String) :
    equipment_selector fs m = equipment_selector fs (pyLower (pyStrip m)) := by
  unfold equipment_selector
  rw [pyNormalize_lower_strip]

/-- C4 (counterexample): loading is not exception-free for every file state.
Valid JSON content that is not an object (here the number `5`) is returned
as-is by the loader, and the membership test `muscle not in equipments_db`
then raises `TypeError`; an unreadable file raises an `OSError` that the
loader does not catch.  Neither call returns the not-found default. -/
theorem equipment_selector_raises_counterexample :
    equipment_selector (FileState.content (Json.num 5)) "legs" = .error PyError.typeError ∧
    equipment_selector FileState.unreadable "legs" = .error PyError.osError ∧
    (Except.error PyError.typeError ≠
      (Except.ok (not_found_default "legs") : Except PyError LookupResult)) ∧
    (Except.error PyError.osError ≠
      (Except.ok (not_found_default "legs") : Except PyError LookupResult)) := by
  decide

/-- C4 (amended): a missing file and invalid JSON are swallowed — the loader
returns the empty table and `equipment_selector` returns the not-found
default; but an unreadable file propagates `OSError` and valid non-object
JSON content can raise `TypeError` (see the counterexample). -/
theorem equipment_selector_missing_invalid_swallowed (m : String) :
    equipment_selector FileState.missing m = .ok (not_found_default (pyNormalize m)) ∧
    equipment_selector FileState.invalidJson m = .ok (not_found_default (pyNormalize m)) :=
  ⟨rfl, rfl⟩

/-- C5 (counterexample): the root pipeline contains no validation,
persistence, recommendation or aggregation step.  The root sequential agent
has exactly two sub-agents — the decoder and the parallel planner/equipment
pair — and the only agent names anywhere in the wiring are the five below. -/
theorem root_agent_only_two_stages :
    root_agent.subAgents = [workout_decoder_agent, parallel_processor] ∧
    root_agent.subAgents.length = 2 ∧
    root_agent.allNames = ["ExercisePipeline", "workout_decoder", "ParallelPipeline",
                           "workout_planner", "equipments_agent"] :=
  ⟨rfl, rfl, rfl⟩

/-- C5 (amended): the root pipeline is the fixed DAG — decode, then plan and
equipment in parallel — and nothing more. -/
theorem root_agent_wiring :
    root_agent = AgentNode.sequential "ExercisePipeline"
      [AgentNode.llmAgent "workout_decoder",
       AgentNode.parallel "ParallelPipeline"
         [AgentNode.llmAgent "workout_planner", AgentNode.llmAgent "equipments_agent"]] :=
  rfl

/-- C6 (confirmed, spec-modelled): starting from an empty history file,
appending N records one by one and then loading yields exactly those N
records in insertion order. -/
theorem append_then_load_roundtrip (records : List Json) :
    load_history (records.foldl append_history empty_history_file) = records := by
  rw [load_history_foldl_append]
  rfl

/-- C7 (confirmed, spec-modelled): the history load helper returns the empty
list for a missing file, for invalid JSON, and for content that is not a JSON
array; it is a total function, so it never raises to its caller. -/
theorem load_history_fails_closed :
    load_history FileState.missing = [] ∧
    load_history FileState.invalidJson = [] ∧
    load_history FileState.unreadable = [] ∧
    ∀ j : Json, (∀ entries, j ≠ Json.arr entries) → load_history (FileState.content j) = [] := by
  refine ⟨rfl, rfl, rfl, ?_⟩
  intro j hj
  cases j with
  | arr entries => exact absurd rfl (hj entries)
  | null => rfl
  | bool b => rfl
  | num n => rfl
  | str s => rfl
  | obj kvs => rfl

/-- C7 (witness): the load helper applied to a file containing the JSON
number `7` (valid JSON, not an array) yields the empty list. -/
theorem load_history_fails_closed_witness :
    (∀ entries, Json.num 7 ≠ Json.arr entries) ∧
    load_history (FileState.content (Json.num 7)) = [] :=
  ⟨fun _ h => Json.noConfusion h,
   load_history_fails_closed.2.2.2 (Json.num 7) (fun _ h => Json.noConfusion h)⟩

/-- C8 (confirmed, spec-modelled): the history-aware exercise filter considers
only the last 3 entries (all entries if fewer) — over a history of 5 entries
it reads only the last 3 — and over the considered entries it collects, into
one flat sequence, the lower-cased lines of each entry's workout text that
contain the literal substring "Exercise" or a hyphen character. -/
theorem history_filter_last_three_spec :
    (∀ history : List WorkoutHistoryEntry,
      history_filter history = history_filter (history.drop (history.length - 3))) ∧
    (∀ e1 e2 e3 e4 e5 : WorkoutHistoryEntry,
      history_filter [e1, e2, e3, e4, e5] = history_filter [e3, e4, e5]) ∧
    (∀ history : List WorkoutHistoryEntry,
      history_filter history = (history.drop (history.length - 3)).foldr
        (fun e acc =>
          ((splitLines e.workout).filter matchesExerciseLine).map pyLower ++ acc) []) := by
  have hdrop : ∀ history : List WorkoutHistoryEntry,
      history_filter history = (history.drop (history.length - 3)).foldr
        (fun e acc =>
          ((splitLines e.workout).filter matchesExerciseLine).map pyLower ++ acc) [] := by
    intro history
    unfold history_filter
    rw [lastThreeEntries_eq_drop]
  refine ⟨?_, ?_, hdrop⟩
  · intro history
    rw [hdrop history, hdrop (history.drop (history.length - 3))]
    have hlen : (history.drop (history.length - 3)).length ≤ 3 := by
      rw [List.length_drop]; omega
    rw [Nat.sub_eq_zero_of_le hlen, List.drop_zero]
  · intro e1 e2 e3 e4 e5
    rw [hdrop [e1, e2, e3, e4, e5], hdrop [e3, e4, e5]]
    rfl

/-- C9 (confirmed): whenever `equipment_selector` returns normally, the result
record has exactly the four fields `status`, `muscle`, `required`,
`alternatives` (the `LookupResult` structure), its status is `"success"` or
`"not_found"`, and its muscle field equals the input lower-cased and
stripped — never the caller's original string. -/
theorem equipment_selector_result_shape (fs : FileState) (m : String) (r : LookupResult)
    (h : equipment_selector fs m = .ok r) :
    (r.status = "success" ∨ r.status = "not_found") ∧ r.muscle = pyNormalize m := by
  simp only [equipment_selector] at h
  repeat' split at h
  all_goals
    first
    | exact Except.noConfusion h
    | (injection h with h2; subst h2; exact ⟨Or.inr rfl, rfl⟩)
    | (injection h with h2; subst h2; exact ⟨Or.inl rfl, rfl⟩)

/-- C9 (witness): the shape theorem applied to the concrete call with a
missing table file and the muscle `" Chest "`. -/
theorem equipment_selector_result_shape_witness :
    equipment_selector FileState.missing " Chest " = .ok (not_found_default "chest") ∧
    (((not_found_default "chest").status = "success" ∨
      (not_found_default "chest").status = "not_found") ∧
     (not_found_default "chest").muscle = pyNormalize " Chest ") :=
  ⟨by decide,
   equipment_selector_result_shape FileState.missing " Chest " (not_found_default "chest")
     (by decide)⟩

/-- C10 (confirmed): an empty or whitespace-only muscle string is not
rejected — provided the empty string is not a key of the table,
`equipment_selector("")` and `equipment_selector("   ")` both return the
not-found default record with muscle equal to `""`. -/
theorem equipment_selector_blank_muscle (kvs : List (String × Json))
    (h : kvs.any (fun kv => kv.1 == "") = false) :
    equipment_selector (FileState.content (Json.obj kvs)) "" =
      .ok (not_found_default "") ∧
    equipment_selector (FileState.content (Json.obj kvs)) "   " =
      .ok (not_found_default "") :=
  ⟨selector_not_found_of_no_key kvs "" h, selector_not_found_of_no_key kvs "   " h⟩

/-- C10 (witness): the blank-muscle theorem applied to the one-entry table
`{"chest": {}}`, which does not contain the key `""`. -/
theorem equipment_selector_blank_muscle_witness :
    equipment_selector (FileState.content (Json.obj [("chest", Json.obj [])])) "" =
      .ok (not_found_default "") ∧
    equipment_selector (FileState.content (Json.obj [("chest", Json.obj [])])) "   " =
      .ok (not_found_default "") :=
  equipment_selector_blank_muscle [("chest", Json.obj [])] (by decide)
